import Mathlib

/-!
Shallow embedding of the openstor-go client subsystem for per-object
retention locks and per-bucket default server-side encryption
configuration, together with proofs of the specified properties.

Source files embedded:
* the object-retention file (`objectRetention`, `newObjectRetention`,
  `PutObjectRetention`, `GetObjectRetention`);
* `api-bucket-encryption.go` (`SetBucketEncryption`,
  `RemoveBucketEncryption`, `GetBucketEncryption`).

Modelling conventions:
* Go `*T` parameters and fields become `Option T`; a nil pointer is `none`.
* Go `time.Time` is modelled by `GoTime`, carrying the value's RFC 3339
  rendering, the only aspect of a time value this subsystem observes
  (`IsZero` and the ISO-8601 XML encoding).
* Go errors become the `GoError` sum type.
* `xml.Marshal` / `xml.Unmarshal` for the tagged `objectRetention` struct
  are embedded at the level of the document tree (`RetentionDoc`): an
  `omitempty` field is present in the tree exactly when it is non-zero,
  and unmarshalling a tree missing a field leaves the Go zero value.
  `renderRetentionDoc` renders a tree to the byte-exact wire text.
* The transport (`executeMethod`), name validators
  (`s3utils.CheckValidBucketName` / `CheckValidObjectName`), the generic
  error-response parser (`httpRespToErrorResponse`) and the digest
  helpers (`sumMD5Base64`, `sum256Hex`, `emptySHA256Hex`) are external
  collaborators: the validators enter as boolean parameters, the
  transport as a function parameter producing a status code (and, for
  GET calls, a decoded body, `none` standing for a response stream the
  XML decoder rejects), the error parser as the `GoError.errorResponse`
  constructor, and the digests — deterministic functions of
  `contentBody` — are not tracked separately in `requestMetadata`.
Each Go function is split into its pure request-construction phase
(everything before `executeMethod`) and its pure response-interpretation
phase (everything after), composed with the transport parameter in a
function keeping the Go function's name.
-/

/-- Go type `RetentionMode`, a named string type. -/
abbrev RetentionMode := String

/-- Constant `GOVERNANCE` of type `RetentionMode`. -/
def Governance : RetentionMode := "GOVERNANCE"

/-- Constant `COMPLIANCE` of type `RetentionMode`. -/
def Compliance : RetentionMode := "COMPLIANCE"

/-- Modelled from the spec: `RetentionMode.IsValid` is declared outside the
embedded files; the spec fixes it as membership in the closed enumeration
`GOVERNANCE`, `COMPLIANCE` ("No other values are valid"). -/
def RetentionMode.isValid (m : RetentionMode) : Bool :=
  m = Governance || m = Compliance

/-- Go `time.Time`, modelled by its RFC 3339 rendering. -/
structure GoTime where
  rfc3339 : String
  deriving Repr, DecidableEq

/-- The rendering of Go's zero `time.Time` (January 1, year 1, 00:00:00 UTC). -/
def GoTime.zeroValue : GoTime := ⟨"0001-01-01T00:00:00Z"⟩

/-- Go `time.Time.IsZero`. -/
def GoTime.isZero (t : GoTime) : Bool := t = GoTime.zeroValue

/-- The errors the embedded functions produce. `nameError` stands for a
rejection by the external name validators; `invalidRetentionMode` for the
`fmt.Errorf` value built in `newObjectRetention`; `invalidArgument` for
`errInvalidArgument` (modelled from the spec: raised as the
`InvalidArgument` validation error); `decodeError` for an XML decoder
failure on a response body; `errorResponse` for the structured service
error `httpRespToErrorResponse` builds from a non-success outcome,
carrying the bucket and object identity and the status. -/
inductive GoError where
  | nameError (name : String)
  | invalidRetentionMode (mode : RetentionMode)
  | invalidArgument (message : String)
  | decodeError
  | errorResponse (bucketName objectName : String) (statusCode : Nat)
  | transportError
  deriving Repr, DecidableEq

/-- Go struct `objectRetention` with fields `XMLNS` (attribute,
omitempty), `Mode` (omitempty) and `RetainUntilDate` (pointer,
omitempty). `XMLName` is marshalling metadata (root element
`Retention`), not data, and lives in `RetentionDoc`/`renderRetentionDoc`. -/
structure objectRetention where
  xmlns : String
  mode : RetentionMode
  retainUntilDate : Option GoTime
  deriving Repr, DecidableEq

/-- Go `newObjectRetention(mode *RetentionMode, date *time.Time)`: starts
from the zero struct, stores the date when it is non-nil and non-zero,
then validates and stores the mode when it is non-nil. -/
def newObjectRetention (mode : Option RetentionMode) (date : Option GoTime) :
    Except GoError objectRetention :=
  let r0 : objectRetention := ⟨"", "", none⟩
  let r1 : objectRetention :=
    match date with
    | some d => if !d.isZero then { r0 with retainUntilDate := some d } else r0
    | none => r0
  match mode with
  | some m =>
    if !m.isValid then Except.error (GoError.invalidRetentionMode m)
    else Except.ok { r1 with mode := m }
  | none => Except.ok r1

/-- The retention wire document tree: root element `Retention` with an
optional `xmlns` attribute and optional `Mode` and `RetainUntilDate`
child elements (each carried here as its text content). -/
structure RetentionDoc where
  xmlnsAttr : Option String
  modeElem : Option String
  retainUntilDateElem : Option String
  deriving Repr, DecidableEq

/-- Go `xml.Marshal` on `objectRetention`: each `omitempty` field is
emitted exactly when non-zero (non-empty string, non-nil pointer); the
`RetainUntilDate` content is the time's ISO-8601 / RFC 3339 rendering. -/
def xmlMarshalRetention (r : objectRetention) : RetentionDoc :=
  { xmlnsAttr := if r.xmlns = "" then none else some r.xmlns
    modeElem := if r.mode = "" then none else some r.mode
    retainUntilDateElem := r.retainUntilDate.map GoTime.rfc3339 }

/-- Go `xml.Unmarshal` into a fresh `&objectRetention{}`: a field absent
from the document keeps the Go zero value (empty string, nil pointer). -/
def xmlUnmarshalRetention (d : RetentionDoc) : objectRetention :=
  { xmlns := d.xmlnsAttr.getD ""
    mode := d.modeElem.getD ""
    retainUntilDate := d.retainUntilDateElem.map GoTime.mk }

/-- Byte-exact rendering of a retention document, as Go `xml.Marshal`
prints it (no XML header, no whitespace between elements). -/
def renderRetentionDoc (d : RetentionDoc) : String :=
  "<Retention"
    ++ (match d.xmlnsAttr with
        | some ns => " xmlns=\"" ++ ns ++ "\""
        | none => "")
    ++ ">"
    ++ (match d.modeElem with
        | some m => "<Mode>" ++ m ++ "</Mode>"
        | none => "")
    ++ (match d.retainUntilDateElem with
        | some t => "<RetainUntilDate>" ++ t ++ "</RetainUntilDate>"
        | none => "")
    ++ "</Retention>"

/-- Go struct `requestMetadata`, restricted to the fields the embedded
operations populate. `queryValues` models `url.Values` and
`customHeader` models `http.Header` as association lists (each key is
set at most once here, so map order is immaterial); `contentBody` is the
rendered request body (`none` when the operation sends no body);
`contentLength` is its byte length. The digest fields
(`contentMD5Base64`, `contentSHA256Hex`) are deterministic collaborator
functions of `contentBody` and are not tracked separately. -/
structure requestMetadata where
  bucketName : String
  objectName : String
  queryValues : List (String × String)
  customHeader : List (String × String)
  contentBody : Option String
  contentLength : Nat
  deriving Repr, DecidableEq

/-- Modelled from the spec: the bypass-governance header name constant
`amzBypassGovernance` is declared outside the embedded files; only its
identity matters here. -/
def amzBypassGovernance : String := "X-Amz-Bypass-Governance-Retention"

/-- Go struct `PutObjectRetentionOptions`. -/
structure PutObjectRetentionOptions where
  GovernanceBypass : Bool
  Mode : Option RetentionMode
  RetainUntilDate : Option GoTime
  VersionID : String
  deriving Repr, DecidableEq

/-- Request-construction phase of Go `PutObjectRetention`: name
validation, the `retention` query marker, the optional `versionId`
query parameter, configuration construction and XML marshalling, and
the conditional bypass-governance header. -/
def putObjectRetentionRequest (bucketNameValid objectNameValid : Bool)
    (bucketName objectName : String) (opts : PutObjectRetentionOptions) :
    Except GoError requestMetadata :=
  if !bucketNameValid then Except.error (GoError.nameError bucketName)
  else if !objectNameValid then Except.error (GoError.nameError objectName)
  else
    let urlValues := ("retention", "") ::
      (if opts.VersionID ≠ "" then [("versionId", opts.VersionID)] else [])
    match newObjectRetention opts.Mode opts.RetainUntilDate with
    | Except.error e => Except.error e
    | Except.ok retention =>
      let retentionData := renderRetentionDoc (xmlMarshalRetention retention)
      let headers :=
        if opts.GovernanceBypass then [(amzBypassGovernance, "true")] else []
      Except.ok
        ⟨bucketName, objectName, urlValues, headers, some retentionData,
          retentionData.length⟩

/-- Response-interpretation phase of Go `PutObjectRetention`: any status
other than 200 or 204 becomes the structured service error carrying the
bucket and object identity. -/
def putObjectRetentionInterpret (bucketName objectName : String)
    (statusCode : Nat) : Except GoError Unit :=
  if statusCode ≠ 200 ∧ statusCode ≠ 204 then
    Except.error (GoError.errorResponse bucketName objectName statusCode)
  else Except.ok ()

/-- Go `PutObjectRetention`: request construction, transport execution,
response interpretation. The transport yields a status code or a
transport-level error, which passes through unmodified. -/
def PutObjectRetention (bucketNameValid objectNameValid : Bool)
    (bucketName objectName : String) (opts : PutObjectRetentionOptions)
    (transport : requestMetadata → Except GoError Nat) : Except GoError Unit :=
  match putObjectRetentionRequest bucketNameValid objectNameValid
      bucketName objectName opts with
  | Except.error e => Except.error e
  | Except.ok req =>
    match transport req with
    | Except.error e => Except.error e
    | Except.ok statusCode =>
      putObjectRetentionInterpret bucketName objectName statusCode

/-- Request-construction phase of Go `GetObjectRetention`: name
validation, the `retention` query marker and the optional `versionId`
query parameter; no body is sent (the empty-body digest marker
`emptySHA256Hex` accompanies the descriptor in the source). -/
def getObjectRetentionRequest (bucketNameValid objectNameValid : Bool)
    (bucketName objectName versionID : String) :
    Except GoError requestMetadata :=
  if !bucketNameValid then Except.error (GoError.nameError bucketName)
  else if !objectNameValid then Except.error (GoError.nameError objectName)
  else
    let urlValues := ("retention", "") ::
      (if versionID ≠ "" then [("versionId", versionID)] else [])
    Except.ok ⟨bucketName, objectName, urlValues, [], none, 0⟩

/-- Response-interpretation phase of Go `GetObjectRetention`: any status
other than 200 becomes the structured service error; on 200 the body is
decoded (a stream the XML decoder rejects, modelled as `none`,
propagates the decode error) and the call returns the address of the
decoded struct's mode — always a non-nil pointer — together with its
retain-until pointer. -/
def getObjectRetentionInterpret (bucketName objectName : String)
    (statusCode : Nat) (body : Option RetentionDoc) :
    Except GoError (Option RetentionMode × Option GoTime) :=
  if statusCode ≠ 200 then
    Except.error (GoError.errorResponse bucketName objectName statusCode)
  else
    match body with
    | none => Except.error GoError.decodeError
    | some d =>
      let retention := xmlUnmarshalRetention d
      Except.ok (some retention.mode, retention.retainUntilDate)

/-- Go `GetObjectRetention`: request construction, transport execution,
response interpretation. The transport yields a status code and the
response body. -/
def GetObjectRetention (bucketNameValid objectNameValid : Bool)
    (bucketName objectName versionID : String)
    (transport : requestMetadata → Except GoError (Nat × Option RetentionDoc)) :
    Except GoError (Option RetentionMode × Option GoTime) :=
  match getObjectRetentionRequest bucketNameValid objectNameValid
      bucketName objectName versionID with
  | Except.error e => Except.error e
  | Except.ok req =>
    match transport req with
    | Except.error e => Except.error e
    | Except.ok (statusCode, body) =>
      getObjectRetentionInterpret bucketName objectName statusCode body

/-- Modelled from the spec: one rule of the `sse.Configuration` document
(package `sse`, outside the embedded files): an algorithm identifier
and, for KMS-based algorithms, an optional key identifier. -/
structure sseRule where
  sseAlgorithm : String
  kmsMasterKeyID : String
  deriving Repr, DecidableEq

/-- Modelled from the spec: Go `sse.Configuration` (outside the embedded
files): an ordered sequence of rules. -/
structure sseConfiguration where
  rules : List sseRule
  deriving Repr, DecidableEq

/-- Rendering of one encryption rule element. -/
def renderSSERule (r : sseRule) : String :=
  "<Rule><ApplyServerSideEncryptionByDefault><SSEAlgorithm>"
    ++ r.sseAlgorithm
    ++ "</SSEAlgorithm>"
    ++ (if r.kmsMasterKeyID ≠ ""
        then "<KMSMasterKeyID>" ++ r.kmsMasterKeyID ++ "</KMSMasterKeyID>"
        else "")
    ++ "</ApplyServerSideEncryptionByDefault></Rule>"

/-- Go `xml.Marshal` on `sse.Configuration`, rendered to wire text: the
root element wrapping the ordered rule elements. -/
def renderSSEConfiguration (c : sseConfiguration) : String :=
  "<ServerSideEncryptionConfiguration>"
    ++ String.join (c.rules.map renderSSERule)
    ++ "</ServerSideEncryptionConfiguration>"

/-- The message `errInvalidArgument` is given in Go `SetBucketEncryption`. -/
def sseConfigEmptyMessage : String := "configuration cannot be empty"

/-- Request-construction phase of Go `SetBucketEncryption`: name
validation, then rejection of a nil configuration with the
`InvalidArgument` error before any encoding, then XML marshalling and
the `encryption` query marker. -/
def setBucketEncryptionRequest (bucketNameValid : Bool) (bucketName : String)
    (config : Option sseConfiguration) : Except GoError requestMetadata :=
  if !bucketNameValid then Except.error (GoError.nameError bucketName)
  else
    match config with
    | none => Except.error (GoError.invalidArgument sseConfigEmptyMessage)
    | some cfg =>
      let buf := renderSSEConfiguration cfg
      Except.ok ⟨bucketName, "", [("encryption", "")], [], some buf, buf.length⟩

/-- Response-interpretation phase of Go `SetBucketEncryption`: any
status other than 200 becomes the structured service error carrying the
bucket identity (the object field is empty for bucket operations). -/
def setBucketEncryptionInterpret (bucketName : String) (statusCode : Nat) :
    Except GoError Unit :=
  if statusCode ≠ 200 then
    Except.error (GoError.errorResponse bucketName "" statusCode)
  else Except.ok ()

/-- Go `SetBucketEncryption`: request construction, transport execution,
response interpretation. -/
def SetBucketEncryption (bucketNameValid : Bool) (bucketName : String)
    (config : Option sseConfiguration)
    (transport : requestMetadata → Except GoError Nat) : Except GoError Unit :=
  match setBucketEncryptionRequest bucketNameValid bucketName config with
  | Except.error e => Except.error e
  | Except.ok req =>
    match transport req with
    | Except.error e => Except.error e
    | Except.ok statusCode => setBucketEncryptionInterpret bucketName statusCode

/-- Request-construction phase of Go `RemoveBucketEncryption`: name
validation and the `encryption` query marker; no body. -/
def removeBucketEncryptionRequest (bucketNameValid : Bool)
    (bucketName : String) : Except GoError requestMetadata :=
  if !bucketNameValid then Except.error (GoError.nameError bucketName)
  else Except.ok ⟨bucketName, "", [("encryption", "")], [], none, 0⟩

/-- Response-interpretation phase of Go `RemoveBucketEncryption`: any
status other than 200 or 204 becomes the structured service error. -/
def removeBucketEncryptionInterpret (bucketName : String) (statusCode : Nat) :
    Except GoError Unit :=
  if statusCode ≠ 200 ∧ statusCode ≠ 204 then
    Except.error (GoError.errorResponse bucketName "" statusCode)
  else Except.ok ()

/-- Go `RemoveBucketEncryption`: request construction, transport
execution, response interpretation. -/
def RemoveBucketEncryption (bucketNameValid : Bool) (bucketName : String)
    (transport : requestMetadata → Except GoError Nat) : Except GoError Unit :=
  match removeBucketEncryptionRequest bucketNameValid bucketName with
  | Except.error e => Except.error e
  | Except.ok req =>
    match transport req with
    | Except.error e => Except.error e
    | Except.ok statusCode =>
      removeBucketEncryptionInterpret bucketName statusCode

/-- Request-construction phase of Go `GetBucketEncryption`: name
validation and the `encryption` query marker; no body. -/
def getBucketEncryptionRequest (bucketNameValid : Bool)
    (bucketName : String) : Except GoError requestMetadata :=
  if !bucketNameValid then Except.error (GoError.nameError bucketName)
  else Except.ok ⟨bucketName, "", [("encryption", "")], [], none, 0⟩

/-- Response-interpretation phase of Go `GetBucketEncryption`: any
status other than 200 becomes the structured service error; on 200 the
body is decoded (an undecodable stream, modelled as `none`, propagates
the decode error) and the decoded configuration is returned. -/
def getBucketEncryptionInterpret (bucketName : String) (statusCode : Nat)
    (body : Option sseConfiguration) : Except GoError sseConfiguration :=
  if statusCode ≠ 200 then
    Except.error (GoError.errorResponse bucketName "" statusCode)
  else
    match body with
    | none => Except.error GoError.decodeError
    | some cfg => Except.ok cfg

/-- Go `GetBucketEncryption`: request construction, transport execution,
response interpretation. -/
def GetBucketEncryption (bucketNameValid : Bool) (bucketName : String)
    (transport : requestMetadata → Except GoError (Nat × Option sseConfiguration)) :
    Except GoError sseConfiguration :=
  match getBucketEncryptionRequest bucketNameValid bucketName with
  | Except.error e => Except.error e
  | Except.ok req =>
    match transport req with
    | Except.error e => Except.error e
    | Except.ok (statusCode, body) =>
      getBucketEncryptionInterpret bucketName statusCode body

/-- Concrete bucket name used in closed scenario statements. -/
def bName : String := "b"

/-- Concrete object name used in closed scenario statements. -/
def oName : String := "o"

/-- The fixed retain-until instant of end-to-end scenario A. -/
def scenarioDate : GoTime := ⟨"2030-01-01T00:00:00Z"⟩

/-- The wire text scenario A requires the request body to carry. -/
def scenarioBodyXML : String :=
  "<Retention><Mode>GOVERNANCE</Mode><RetainUntilDate>2030-01-01T00:00:00Z</RetainUntilDate></Retention>"

/-- An invalid retention mode used in closed validation statements. -/
def badMode : RetentionMode := "INVALID"

/-- Version id used in closed version-propagation statements. -/
def v1Name : String := "v1"

/-- Wire text of the empty retention configuration. -/
def emptyRetentionXML : String := "<Retention></Retention>"

/-- Wire text of the COMPLIANCE-mode retention configuration without a
retain-until date. -/
def complianceRetentionXML : String :=
  "<Retention><Mode>COMPLIANCE</Mode></Retention>"

/-- The request descriptor built for a SET-retention call with the
bypass flag set and no mode, date or version. -/
def c3req : requestMetadata :=
  ⟨bName, oName, [("retention", "")], [(amzBypassGovernance, "true")],
    some emptyRetentionXML, emptyRetentionXML.length⟩

/-- The request descriptor built for a SET-retention call with mode
COMPLIANCE and the bypass flag set. -/
def c4req : requestMetadata :=
  ⟨bName, oName, [("retention", "")], [(amzBypassGovernance, "true")],
    some complianceRetentionXML, complianceRetentionXML.length⟩

/-- The request descriptor built for a SET-retention call with version
id `v1` and no mode, date or bypass. -/
def c7reqP : requestMetadata :=
  ⟨bName, oName, [("retention", ""), ("versionId", v1Name)], [],
    some emptyRetentionXML, emptyRetentionXML.length⟩

/-- The request descriptor built for a GET-retention call with version
id `v1`. -/
def c7reqG : requestMetadata :=
  ⟨bName, oName, [("retention", ""), ("versionId", v1Name)], [], none, 0⟩
/-- Claim C1: constructing a retention configuration via
`newObjectRetention` fails — and then with the invalid-retention-mode
error — exactly when a mode is supplied that is neither GOVERNANCE nor
COMPLIANCE; with neither mode nor date supplied it succeeds and yields
the configuration with both fields unset. -/
theorem claim_C1 (mode : Option RetentionMode) (date : Option GoTime) :
    ((∃ m, newObjectRetention mode date = Except.error (GoError.invalidRetentionMode m))
      ↔ (∃ m, mode = some m ∧ ¬(m = Governance ∨ m = Compliance)))
    ∧ (∀ e, newObjectRetention mode date = Except.error e →
        ∃ m, mode = some m ∧ e = GoError.invalidRetentionMode m)
    ∧ newObjectRetention none none = Except.ok ⟨"", "", none⟩ := by
  refine ⟨?_, ?_, rfl⟩
  · cases mode with
    | none =>
      simp only [newObjectRetention]
      constructor
      · rintro ⟨m, hm⟩
        cases date with
        | none => simp at hm
        | some d => cases h : d.isZero <;> simp [h] at hm
      · rintro ⟨m, hm, _⟩
        exact absurd hm (by simp)
    | some m =>
      constructor
      · rintro ⟨m', hm'⟩
        refine ⟨m, rfl, ?_⟩
        intro hval
        have hv : m.isValid = true := by
          simp only [RetentionMode.isValid]
          rcases hval with h | h <;> simp [h]
        simp only [newObjectRetention, hv] at hm'
        cases date with
        | none => simp at hm'
        | some d => cases h : d.isZero <;> simp [h] at hm'
      · rintro ⟨m', hm', hval⟩
        have hmm : m' = m := by injection hm' with h; exact h.symm
        subst hmm
        have hv : m'.isValid = false := by
          simp only [RetentionMode.isValid]
          simp only [Bool.or_eq_false_iff, decide_eq_false_iff_not]
          exact ⟨fun h => hval (Or.inl h), fun h => hval (Or.inr h)⟩
        refine ⟨m', ?_⟩
        simp only [newObjectRetention, hv]
        rfl
  · intro e he
    cases mode with
    | none =>
      exfalso
      simp only [newObjectRetention] at he
      cases date with
      | none => simp at he
      | some d => cases h : d.isZero <;> simp [h] at he
    | some m =>
      refine ⟨m, rfl, ?_⟩
      cases hv : m.isValid with
      | true =>
        exfalso
        simp only [newObjectRetention, hv] at he
        cases date with
        | none => simp at he
        | some d => cases h : d.isZero <;> simp [h] at he
      | false =>
        simp only [newObjectRetention, hv] at he
        cases date with
        | none =>
          simp only [Bool.not_false, if_pos] at he
          injection he with h
          exact h.symm
        | some d =>
          cases h : d.isZero <;>
            · simp only [h] at he
              injection he with h2
              exact h2.symm

/-- Claim C2: for every constructible retention configuration, decoding
the wire document produced by encoding it reproduces it; fields unset in
the model are omitted from the document entirely, and a document missing
those fields decodes to unset model fields. -/
theorem claim_C2 (mode : Option RetentionMode) (date : Option GoTime)
    (r : objectRetention)
    (h : newObjectRetention mode date = Except.ok r) :
    xmlUnmarshalRetention (xmlMarshalRetention r) = r
    ∧ (r.mode = "" → (xmlMarshalRetention r).modeElem = none)
    ∧ (r.retainUntilDate = none → (xmlMarshalRetention r).retainUntilDateElem = none)
    ∧ xmlUnmarshalRetention ⟨none, none, none⟩ = ⟨"", "", none⟩ := by
  refine ⟨?_, ?_, ?_, rfl⟩
  · cases r with
    | mk x m d =>
      simp only [xmlMarshalRetention, xmlUnmarshalRetention]
      by_cases hx : x = "" <;> by_cases hm : m = "" <;>
        cases d <;> simp [hx, hm]
  · intro hm
    simp [xmlMarshalRetention, hm]
  · intro hd
    simp [xmlMarshalRetention, hd]

/-- Claim C2 witness: the round trip at the concretely constructed
configuration with mode GOVERNANCE and a fixed UTC retain-until date. -/
theorem claim_C2_witness :
    xmlUnmarshalRetention (xmlMarshalRetention ⟨"", Governance, some ⟨"2030-01-01T00:00:00Z"⟩⟩)
      = ⟨"", Governance, some ⟨"2030-01-01T00:00:00Z"⟩⟩ :=
  (claim_C2 (some Governance) (some ⟨"2030-01-01T00:00:00Z"⟩)
    ⟨"", Governance, some ⟨"2030-01-01T00:00:00Z"⟩⟩ rfl).1

/-- Claim C9: `newObjectRetention` normalizes a non-nil but zero-valued
date to unset: the constructed configuration's retain-until field is set
(and then to the supplied date) exactly when the supplied date is
non-nil and non-zero, and a zero date yields the very same result as a
nil date. -/
theorem claim_C9 (mode : Option RetentionMode) (date : Option GoTime)
    (r : objectRetention)
    (h : newObjectRetention mode date = Except.ok r) :
    (r.retainUntilDate ≠ none ↔ ∃ d, date = some d ∧ d.isZero = false)
    ∧ (∀ d, date = some d → d.isZero = false → r.retainUntilDate = some d)
    ∧ (∀ d, d.isZero = true →
        newObjectRetention mode (some d) = newObjectRetention mode none) := by
  refine ⟨?_, ?_, ?_⟩
  · cases date with
    | none =>
      constructor
      · intro hne
        exfalso
        apply hne
        cases mode with
        | none =>
          simp only [newObjectRetention] at h
          injection h with h2
          rw [← h2]
        | some m =>
          cases hv : m.isValid with
          | false => simp [newObjectRetention, hv] at h
          | true =>
            simp only [newObjectRetention, hv] at h
            injection h with h2
            rw [← h2]
      · rintro ⟨d, hd, _⟩
        exact absurd hd (by simp)
    | some d0 =>
      cases hz : d0.isZero with
      | true =>
        constructor
        · intro hne
          exfalso
          apply hne
          cases mode with
          | none =>
            simp only [newObjectRetention, hz] at h
            injection h with h2
            rw [← h2]
            simp
          | some m =>
            cases hv : m.isValid with
            | false => simp [newObjectRetention, hv] at h
            | true =>
              simp only [newObjectRetention, hz, hv] at h
              injection h with h2
              rw [← h2]
              simp
        · rintro ⟨d, hd, hdz⟩
          have : d = d0 := by injection hd with h2; exact h2.symm
          subst this
          rw [hz] at hdz
          exact absurd hdz (by simp)
      | false =>
        constructor
        · intro _
          exact ⟨d0, rfl, hz⟩
        · intro _
          cases mode with
          | none =>
            simp only [newObjectRetention, hz] at h
            injection h with h2
            rw [← h2]
            simp
          | some m =>
            cases hv : m.isValid with
            | false => simp [newObjectRetention, hv] at h
            | true =>
              simp only [newObjectRetention, hz, hv] at h
              injection h with h2
              rw [← h2]
              simp
  · intro d hd hdz
    subst hd
    cases mode with
    | none =>
      simp only [newObjectRetention, hdz] at h
      injection h with h2
      rw [← h2]
      simp
    | some m =>
      cases hv : m.isValid with
      | false => simp [newObjectRetention, hv] at h
      | true =>
        simp only [newObjectRetention, hdz, hv] at h
        injection h with h2
        rw [← h2]
        simp
  · intro d hdz
    simp [newObjectRetention, hdz]

/-- Claim C9 witness: constructing with a nil mode and the zero date
yields the configuration with retain-until unset, as the theorem states
at that concrete input. -/
theorem claim_C9_witness :
    ((⟨"", "", none⟩ : objectRetention).retainUntilDate ≠ none
      ↔ ∃ d, (some GoTime.zeroValue : Option GoTime) = some d ∧ d.isZero = false)
    ∧ (∀ d, (some GoTime.zeroValue : Option GoTime) = some d → d.isZero = false →
        (⟨"", "", none⟩ : objectRetention).retainUntilDate = some d)
    ∧ (∀ d, d.isZero = true →
        newObjectRetention none (some d) = newObjectRetention none none) :=
  claim_C9 none (some GoTime.zeroValue) ⟨"", "", none⟩ rfl

/-- Claim C1 witness: constructing with the concrete invalid mode
`INVALID` and a nil date fails with the invalid-retention-mode error. -/
theorem claim_C1_witness :
    ∃ m, newObjectRetention (some badMode) none =
      Except.error (GoError.invalidRetentionMode m) :=
  (claim_C1 (some badMode) none).1.mpr ⟨badMode, rfl, by decide⟩

/-- Claim C3: a built SET-retention request carries the
bypass-governance header with value `true` exactly when the caller set
the GovernanceBypass flag, and with the flag unset the custom header
set is empty — the header is absent entirely. -/
theorem claim_C3 (bucketNameValid objectNameValid : Bool)
    (bucketName objectName : String) (opts : PutObjectRetentionOptions)
    (req : requestMetadata)
    (h : putObjectRetentionRequest bucketNameValid objectNameValid
      bucketName objectName opts = Except.ok req) :
    ((amzBypassGovernance, "true") ∈ req.customHeader
      ↔ opts.GovernanceBypass = true)
    ∧ (opts.GovernanceBypass = false → req.customHeader = []) := by
  unfold putObjectRetentionRequest at h
  cases bucketNameValid with
  | false => simp at h
  | true =>
    cases objectNameValid with
    | false => simp at h
    | true =>
      simp only [Bool.not_true] at h
      rw [if_neg (by simp), if_neg (by simp)] at h
      cases hn : newObjectRetention opts.Mode opts.RetainUntilDate with
      | error e => rw [hn] at h; cases h
      | ok retention =>
        rw [hn] at h
        injection h with h2
        subst h2
        cases hb : opts.GovernanceBypass <;> simp [hb]

/-- Claim C3 witness: the concretely built bypass-flagged request
carries the header, at the concrete input with the flag set. -/
theorem claim_C3_witness :
    ((amzBypassGovernance, "true") ∈ c3req.customHeader ↔ true = true)
    ∧ (true = false → c3req.customHeader = []) :=
  claim_C3 true true bName oName ⟨true, none, none, ""⟩ c3req rfl

/-- Claim C4 counterexample: a PutObjectRetention call with mode
COMPLIANCE and the GovernanceBypass flag set does emit the
bypass-governance header — the built request's custom header set is
exactly the bypass header — refuting the claim that a COMPLIANCE-mode
call never carries it. -/
theorem claim_C4_counterexample :
    Except.map requestMetadata.customHeader
      (putObjectRetentionRequest true true bName oName
        ⟨true, some Compliance, none, ""⟩) =
      Except.ok [(amzBypassGovernance, "true")] := rfl

/-- Claim C4 as amended: the bypass-governance header depends only on
the GovernanceBypass flag, never on the mode: a COMPLIANCE-mode call
emits no such header unless the caller set the bypass flag, and with
the flag set the header is emitted even for COMPLIANCE. -/
theorem claim_C4 (bucketNameValid objectNameValid : Bool)
    (bucketName objectName : String) (opts : PutObjectRetentionOptions)
    (req : requestMetadata)
    (h : putObjectRetentionRequest bucketNameValid objectNameValid
      bucketName objectName opts = Except.ok req)
    (_hm : opts.Mode = some Compliance) :
    (opts.GovernanceBypass = false →
      ∀ v, (amzBypassGovernance, v) ∉ req.customHeader)
    ∧ (opts.GovernanceBypass = true →
      (amzBypassGovernance, "true") ∈ req.customHeader) := by
  unfold putObjectRetentionRequest at h
  cases bucketNameValid with
  | false => simp at h
  | true =>
    cases objectNameValid with
    | false => simp at h
    | true =>
      simp only [Bool.not_true] at h
      rw [if_neg (by simp), if_neg (by simp)] at h
      cases hn : newObjectRetention opts.Mode opts.RetainUntilDate with
      | error e => rw [hn] at h; cases h
      | ok retention =>
        rw [hn] at h
        injection h with h2
        subst h2
        cases hb : opts.GovernanceBypass <;> simp [hb]

/-- Claim C4 witness: the amended statement at the concrete
COMPLIANCE-plus-bypass input, where the header is emitted. -/
theorem claim_C4_witness :
    (true = false → ∀ v, (amzBypassGovernance, v) ∉ c4req.customHeader)
    ∧ (true = true → (amzBypassGovernance, "true") ∈ c4req.customHeader) :=
  claim_C4 true true bName oName ⟨true, some Compliance, none, ""⟩ c4req rfl rfl

/-- Claim C5 counterexample: a retention GET transport outcome with
status 200 whose body stream the XML decoder rejects is not a success —
the call returns the decode error — refuting that retention GET
succeeds whenever the status is 200. -/
theorem claim_C5_counterexample :
    getObjectRetentionInterpret bName oName 200 none =
      Except.error GoError.decodeError := rfl

/-- Claim C5 as amended: the response interpreters classify outcomes by
status code exactly as stated — retention SET succeeds iff 200 or 204,
encryption SET iff 200, encryption REMOVE iff 200 or 204, and the two
GETs pass status classification iff 200, succeeding when their body
also decodes and propagating the decode error when it does not; every
non-success status yields the service error carrying the bucket (and,
for retention, object) identity. -/
theorem claim_C5 (bucketName objectName : String) (statusCode : Nat)
    (rbody : RetentionDoc) (ebody : sseConfiguration) :
    (putObjectRetentionInterpret bucketName objectName statusCode = Except.ok ()
      ↔ (statusCode = 200 ∨ statusCode = 204))
    ∧ (¬(statusCode = 200 ∨ statusCode = 204) →
        putObjectRetentionInterpret bucketName objectName statusCode =
          Except.error (GoError.errorResponse bucketName objectName statusCode))
    ∧ ((∃ v, getObjectRetentionInterpret bucketName objectName statusCode
          (some rbody) = Except.ok v) ↔ statusCode = 200)
    ∧ (statusCode ≠ 200 →
        getObjectRetentionInterpret bucketName objectName statusCode
          (some rbody) =
          Except.error (GoError.errorResponse bucketName objectName statusCode))
    ∧ (statusCode = 200 →
        getObjectRetentionInterpret bucketName objectName statusCode none =
          Except.error GoError.decodeError)
    ∧ (setBucketEncryptionInterpret bucketName statusCode = Except.ok ()
      ↔ statusCode = 200)
    ∧ (statusCode ≠ 200 →
        setBucketEncryptionInterpret bucketName statusCode =
          Except.error (GoError.errorResponse bucketName "" statusCode))
    ∧ (removeBucketEncryptionInterpret bucketName statusCode = Except.ok ()
      ↔ (statusCode = 200 ∨ statusCode = 204))
    ∧ (¬(statusCode = 200 ∨ statusCode = 204) →
        removeBucketEncryptionInterpret bucketName statusCode =
          Except.error (GoError.errorResponse bucketName "" statusCode))
    ∧ ((∃ v, getBucketEncryptionInterpret bucketName statusCode (some ebody) =
          Except.ok v) ↔ statusCode = 200)
    ∧ (statusCode ≠ 200 →
        getBucketEncryptionInterpret bucketName statusCode (some ebody) =
          Except.error (GoError.errorResponse bucketName "" statusCode))
    ∧ (statusCode = 200 →
        getBucketEncryptionInterpret bucketName statusCode none =
          Except.error GoError.decodeError) := by
  refine ⟨?_, ?_, ?_, ?_, ?_, ?_, ?_, ?_, ?_, ?_, ?_, ?_⟩ <;>
    by_cases h200 : statusCode = 200 <;> by_cases h204 : statusCode = 204 <;>
      simp [putObjectRetentionInterpret, getObjectRetentionInterpret,
        setBucketEncryptionInterpret, removeBucketEncryptionInterpret,
        getBucketEncryptionInterpret, h200, h204]

/-- Claim C5 witness: the amended statement applied at status 500,
where retention SET yields the service error carrying bucket, object
and status. -/
theorem claim_C5_witness :
    putObjectRetentionInterpret bName oName 500 =
      Except.error (GoError.errorResponse bName oName 500) :=
  (claim_C5 bName oName 500 ⟨none, none, none⟩ ⟨[]⟩).2.1 (by decide)

/-- Claim C6: SetBucketEncryption on a valid bucket name with a nil
configuration fails with the InvalidArgument error for every transport
whatsoever — the result does not depend on the transport, so no
transport call is observable — and already the request-construction
phase fails with that error, so no request is built and no encoding is
attempted (in `setBucketEncryptionRequest` the nil check precedes the
marshalling). -/
theorem claim_C6 (bucketName : String)
    (transport : requestMetadata → Except GoError Nat) :
    SetBucketEncryption true bucketName none transport =
      Except.error (GoError.invalidArgument sseConfigEmptyMessage)
    ∧ setBucketEncryptionRequest true bucketName none =
      Except.error (GoError.invalidArgument sseConfigEmptyMessage) :=
  ⟨rfl, rfl⟩

/-- Claim C7: both retention request builders always include the
`retention` sub-resource query marker, and include a `versionId` query
parameter — then equal to the supplied version id — exactly when the
supplied version id is non-empty. -/
theorem claim_C7 (bucketNameValid objectNameValid : Bool)
    (bucketName objectName : String) (opts : PutObjectRetentionOptions)
    (versionID : String) (reqP reqG : requestMetadata)
    (hp : putObjectRetentionRequest bucketNameValid objectNameValid
      bucketName objectName opts = Except.ok reqP)
    (hg : getObjectRetentionRequest bucketNameValid objectNameValid
      bucketName objectName versionID = Except.ok reqG) :
    (("retention", "") ∈ reqP.queryValues ∧ ("retention", "") ∈ reqG.queryValues)
    ∧ (∀ v, ("versionId", v) ∈ reqP.queryValues
        ↔ (v = opts.VersionID ∧ opts.VersionID ≠ ""))
    ∧ (∀ v, ("versionId", v) ∈ reqG.queryValues
        ↔ (v = versionID ∧ versionID ≠ "")) := by
  unfold putObjectRetentionRequest at hp
  unfold getObjectRetentionRequest at hg
  cases bucketNameValid with
  | false => simp at hp
  | true =>
    cases objectNameValid with
    | false => simp at hp
    | true =>
      simp only [Bool.not_true] at hp hg
      rw [if_neg (by simp), if_neg (by simp)] at hp
      rw [if_neg (by simp), if_neg (by simp)] at hg
      injection hg with hg2
      subst hg2
      cases hn : newObjectRetention opts.Mode opts.RetainUntilDate with
      | error e => rw [hn] at hp; cases hp
      | ok retention =>
        rw [hn] at hp
        injection hp with hp2
        subst hp2
        refine ⟨⟨?_, ?_⟩, ?_, ?_⟩
        · simp
        · simp
        · intro v
          by_cases hv : opts.VersionID = "" <;> simp [hv]
        · intro v
          by_cases hv : versionID = "" <;> simp [hv]

/-- Claim C7 witness: the GET-retention request built with version id
`v1` carries the `versionId=v1` query parameter, at that concrete
input. -/
theorem claim_C7_witness :
    ("versionId", v1Name) ∈ c7reqG.queryValues :=
  ((claim_C7 true true bName oName ⟨false, none, none, v1Name⟩ v1Name
    c7reqP c7reqG rfl rfl).2.2 v1Name).mpr ⟨rfl, by decide⟩

/-- Claim C8: the SET-retention request for mode GOVERNANCE and
retain-until 2030-01-01T00:00:00Z carries exactly the wire body
`<Retention><Mode>GOVERNANCE</Mode><RetainUntilDate>2030-01-01T00:00:00Z</RetainUntilDate></Retention>`,
and the whole call against a transport answering status 200 returns no
error. -/
theorem claim_C8 :
    Except.map requestMetadata.contentBody
      (putObjectRetentionRequest true true bName oName
        ⟨false, some Governance, some scenarioDate, ""⟩) =
      Except.ok (some scenarioBodyXML)
    ∧ PutObjectRetention true true bName oName
        ⟨false, some Governance, some scenarioDate, ""⟩
        (fun _ => Except.ok 200) = Except.ok () :=
  ⟨rfl, rfl⟩

/-- Claim C10: a GetObjectRetention call that reaches interpretation
with status 200 and a decodable body returns a non-nil mode pointer,
and when the document carries no Mode element that pointer refers to
the empty retention mode value. -/
theorem claim_C10 (bucketName objectName : String) (body : RetentionDoc)
    (mode : Option RetentionMode) (date : Option GoTime)
    (h : getObjectRetentionInterpret bucketName objectName 200 (some body) =
      Except.ok (mode, date)) :
    mode ≠ none ∧ (body.modeElem = none → mode = some ("")) := by
  simp only [getObjectRetentionInterpret] at h
  rw [if_neg (by simp)] at h
  injection h with h2
  have hmode : mode = some (xmlUnmarshalRetention body).mode := by
    have := congrArg Prod.fst h2
    exact this.symm
  constructor
  · rw [hmode]; simp
  · intro hnone
    rw [hmode]
    simp [xmlUnmarshalRetention, hnone]

/-- Claim C10 witness: interpreting a status-200 response whose document
carries no Mode element, at concrete names, yields the non-nil pointer
to the empty retention mode. -/
theorem claim_C10_witness :
    (some ("") : Option RetentionMode) ≠ none
    ∧ ((⟨none, none, none⟩ : RetentionDoc).modeElem = none →
        (some ("") : Option RetentionMode) = some ("")) :=
  claim_C10 bName oName ⟨none, none, none⟩ (some ("")) none rfl
